import Mathlib

/-!
Verification of the bcr-relay core against its specification.

The Rust sources are embedded shallowly: timestamps (`chrono::DateTime<Utc>`)
become `Int` seconds, `chrono::Duration` constants become `Int` seconds,
hash maps become association lists, and the database tables behind
`NotificationStoreApi` become lists of row structures.  Fallible I/O
(signature verification, DNS, the upstream HTTP fetch, the email provider)
is passed in as explicit oracle arguments, mirroring the data flow of the
handlers.
-/

namespace BcrRelay

/-! ## Rate limiter (src/rate_limit.rs) -/

/-- Constant `MAX_IDLE` from src/rate_limit.rs: remove after 24h idle (seconds). -/
def MAX_IDLE : Int := 24 * 3600

/-- Constant `PRUNE_INTERVAL` from src/rate_limit.rs: check every 10 minutes (seconds). -/
def PRUNE_INTERVAL : Int := 10 * 60

/-- The `SlidingWindow` from src/rate_limit.rs: a deque of hit timestamps plus
the window, the limit and the last-seen time. The deque front is the list head. -/
structure SlidingWindow where
  hits : List Int
  window : Int
  limit : Nat
  last_seen : Int
deriving DecidableEq

/-- The front-popping loop at the start of `SlidingWindow::allow`: pop
timestamps `ts` from the front while `now - ts > window`, stopping at the
first timestamp inside the window. -/
def dropExpired (now window : Int) : List Int → List Int
  | [] => []
  | ts :: rest => if now - ts > window then dropExpired now window rest else ts :: rest

/-- The `SlidingWindow::allow` from src/rate_limit.rs: drop expired hits, set
`last_seen := now`, then append `now` and allow iff fewer than `limit` hits remain. -/
def SlidingWindow.allow (w : SlidingWindow) (now : Int) : Bool × SlidingWindow :=
  let kept := dropExpired now w.window w.hits
  if kept.length < w.limit then
    (true, ⟨kept ++ [now], w.window, w.limit, now⟩)
  else
    (false, ⟨kept, w.window, w.limit, now⟩)

/-- The `SlidingWindow::retain` from src/rate_limit.rs: keep an entry iff it was
seen within `MAX_IDLE` of `now`. -/
def SlidingWindow.retain (w : SlidingWindow) (now : Int) : Bool :=
  decide (now - w.last_seen ≤ MAX_IDLE)

/-- The `SlidingWindow::new` from src/rate_limit.rs (the `Utc::now()` of creation
is passed explicitly). -/
def SlidingWindow.new (limit : Nat) (window : Int) (now : Int) : SlidingWindow :=
  ⟨[], window, limit, now⟩

/-- Feed a sequence of call times to `allow`, returning each call's time and result. -/
def runAllow : SlidingWindow → List Int → List (Int × Bool)
  | _, [] => []
  | w, t :: ts =>
    let p := SlidingWindow.allow w t
    (t, p.1) :: runAllow p.2 ts

/-- Number of allowed calls whose time lies in the closed interval `[a, a + W]`. -/
def countAllowedIn (a W : Int) (rs : List (Int × Bool)) : Nat :=
  rs.countP (fun p => decide (a ≤ p.1 ∧ p.1 ≤ a + W) && p.2)

/-- Number of list elements that are `≥ a`. -/
def countGe (a : Int) (l : List Int) : Nat :=
  l.countP (fun h => decide (a ≤ h))

/-- The `RateLimiter` from src/rate_limit.rs; the four `HashMap<String, SlidingWindow>`
fields are modelled as association lists. -/
structure RateLimiter where
  by_ip : List (String × SlidingWindow)
  by_email : List (String × SlidingWindow)
  by_npub_sender : List (String × SlidingWindow)
  by_npub_receiver : List (String × SlidingWindow)
  last_prune : Int
deriving DecidableEq

/-- The `RateLimiter::prune_if_needed` from src/rate_limit.rs: if at least
`PRUNE_INTERVAL` has passed since `last_prune`, set `last_prune := now` and
retain only recently-seen entries.  The source filters `by_ip`, `by_email`
and `by_npub_sender`; it does not filter `by_npub_receiver`. -/
def RateLimiter.prune_if_needed (rl : RateLimiter) (now : Int) : RateLimiter :=
  if now - rl.last_prune < PRUNE_INTERVAL then rl
  else
    { rl with
      last_prune := now
      by_ip := rl.by_ip.filter (fun kv => kv.2.retain now)
      by_email := rl.by_email.filter (fun kv => kv.2.retain now)
      by_npub_sender := rl.by_npub_sender.filter (fun kv => kv.2.retain now) }

/-! ### Sliding-window lemmas -/

lemma countGe_le_length (a : Int) (l : List Int) : countGe a l ≤ l.length :=
  List.countP_le_length _

lemma dropExpired_length_le (now W : Int) (l : List Int) :
    (dropExpired now W l).length ≤ l.length := by
  induction l with
  | nil => simp [dropExpired]
  | cons x l ih =>
    simp only [dropExpired]
    split
    · exact le_trans ih (Nat.le_succ _)
    · simp

lemma countGe_dropExpired (a now W : Int) (l : List Int) (h : now - W ≤ a) :
    countGe a (dropExpired now W l) = countGe a l := by
  induction l with
  | nil => rfl
  | cons x l ih =>
    simp only [dropExpired]
    split
    · have hx : ¬ (a ≤ x) := by omega
      simp [countGe, List.countP_cons, hx] at ih ⊢
      exact ih
    · rfl

lemma countGe_append_singleton (a t : Int) (l : List Int) :
    countGe a (l ++ [t]) = countGe a l + (if a ≤ t then 1 else 0) := by
  simp [countGe, List.countP_append, List.countP_cons]

lemma countAllowedIn_cons (a W : Int) (t : Int) (b : Bool) (rs : List (Int × Bool)) :
    countAllowedIn a W ((t, b) :: rs) =
      countAllowedIn a W rs + (if (a ≤ t ∧ t ≤ a + W) ∧ b = true then 1 else 0) := by
  simp [countAllowedIn, List.countP_cons]

lemma countAllowedIn_eq_zero (a W : Int) (w : SlidingWindow) (ts : List Int)
    (h : ∀ t ∈ ts, a + W < t) : countAllowedIn a W (runAllow w ts) = 0 := by
  induction ts generalizing w with
  | nil => rfl
  | cons t ts ih =>
    have ht : a + W < t := h t (List.mem_cons_self _ _)
    simp only [runAllow]
    rw [countAllowedIn_cons]
    have : ¬ ((a ≤ t ∧ t ≤ a + W) ∧ (SlidingWindow.allow w t).1 = true) := by
      rintro ⟨⟨_, h2⟩, _⟩; omega
    rw [if_neg this, ih _ (fun s hs => h s (List.mem_cons_of_mem _ hs))]

/-- Core sliding-window invariant: for every interval `[a, a + W]` of width
`W = w.window`, the number of allowed calls with times in that interval plus
the number of initial hits `≥ a` never exceeds the limit, provided the call
times are non-decreasing. -/
theorem runAllow_interval_bound (a : Int) :
    ∀ (ts : List Int) (w : SlidingWindow),
      List.Sorted (· ≤ ·) ts → 0 ≤ w.window → w.hits.length ≤ w.limit →
      countAllowedIn a w.window (runAllow w ts) + countGe a w.hits ≤ w.limit := by
  intro ts
  induction ts with
  | nil =>
    intro w _ _ hlen
    simpa [runAllow, countAllowedIn] using le_trans (countGe_le_length a w.hits) hlen
  | cons t ts ih =>
    intro w hsort hW hlen
    obtain ⟨hall, hsort'⟩ := List.sorted_cons.mp hsort
    by_cases hle : t ≤ a + w.window
    · -- every hit removed by dropExpired is < a, so countGe is preserved
      have hpre : t - w.window ≤ a := by omega
      have hdrop := countGe_dropExpired a t w.window w.hits hpre
      simp only [runAllow, SlidingWindow.allow]
      by_cases hlim : (dropExpired t w.window w.hits).length < w.limit
      · -- allowed: the new hit is appended
        rw [if_pos hlim]
        simp only []
        rw [countAllowedIn_cons]
        have ih' := ih ⟨dropExpired t w.window w.hits ++ [t], w.window, w.limit, t⟩
          hsort' hW (by simpa using hlim)
        simp only [] at ih'
        rw [countGe_append_singleton, hdrop] at ih'
        by_cases hat : a ≤ t
        · rw [if_pos ⟨⟨hat, hle⟩, rfl⟩]
          rw [if_pos hat] at ih'
          omega
        · rw [if_neg (by rintro ⟨⟨h1, _⟩, _⟩; exact hat h1)]
          rw [if_neg hat] at ih'
          omega
      · -- denied
        rw [if_neg hlim]
        simp only []
        rw [countAllowedIn_cons]
        have ih' := ih ⟨dropExpired t w.window w.hits, w.window, w.limit, t⟩
          hsort' hW (le_trans (dropExpired_length_le t w.window w.hits) hlen)
        simp only [] at ih'
        rw [hdrop] at ih'
        rw [if_neg (by rintro ⟨_, hb⟩; simp at hb)]
        omega
    · -- the call is past the interval; so is every later call
      simp only [runAllow]
      rw [countAllowedIn_cons]
      rw [if_neg (by rintro ⟨⟨_, h2⟩, _⟩; omega)]
      rw [countAllowedIn_eq_zero a w.window _ ts (fun s hs => lt_of_lt_of_le (by omega) (hall s hs))]
      simpa using le_trans (countGe_le_length a w.hits) hlen

/-- C4: for every limit `L`, window `W ≥ 0` and non-decreasing timestamp
sequence fed to `SlidingWindow::allow` starting from a fresh window, at most
`L` calls return true within any closed `W`-wide interval `[a, a + W]`; and
concretely with `L = 2`, `W = 10 s`, calls at `0, 0, 0, 11, 11, 11` give
allow, allow, deny, allow, allow, deny. -/
theorem claim_C4_sliding_window_limit (L : Nat) (W a now0 : Int) (ts : List Int)
    (hW : 0 ≤ W) (hts : List.Sorted (· ≤ ·) ts) :
    countAllowedIn a W (runAllow (SlidingWindow.new L W now0) ts) ≤ L ∧
    (runAllow (SlidingWindow.new 2 10 0) [0, 0, 0, 11, 11, 11]).map Prod.snd =
      [true, true, false, true, true, false] := by
  constructor
  · have h := runAllow_interval_bound a ts (SlidingWindow.new L W now0) hts hW
      (by simp [SlidingWindow.new])
    simpa [SlidingWindow.new, countGe] using h
  · decide

/-- Witness for C4 at `L = 2`, `W = 10`, `a = 0`, calls `0, 0, 0, 11, 11, 11`. -/
theorem claim_C4_witness :
    countAllowedIn 0 10 (runAllow (SlidingWindow.new 2 10 0) [0, 0, 0, 11, 11, 11]) ≤ 2 ∧
    (runAllow (SlidingWindow.new 2 10 0) [0, 0, 0, 11, 11, 11]).map Prod.snd =
      [true, true, false, true, true, false] :=
  claim_C4_sliding_window_limit 2 10 0 0 [0, 0, 0, 11, 11, 11] (by decide) (by decide)

/-- A window entry that was last seen at time 0 and is idle ever since. -/
def staleWindow : SlidingWindow := ⟨[], 600, 100, 0⟩

/-- A limiter state holding one idle entry in the IP map and one equally idle
entry in the receiver-key map, with the last prune at time 0. -/
def rlStale : RateLimiter :=
  { by_ip := [("ip", staleWindow)], by_email := [], by_npub_sender := [],
    by_npub_receiver := [("npub", staleWindow)], last_prune := 0 }

/-- C2: pruning at `now = 90000` does run (`90000 - last_prune ≥ PRUNE_INTERVAL`)
and drops the idle IP-map entry, yet the equally idle receiver-key entry
survives `prune_if_needed` even though its `last_seen` is not within
`MAX_IDLE` of `now` — the source filters only `by_ip`, `by_email` and
`by_npub_sender`, so the claimed invariant fails for the fourth map. -/
theorem claim_C2_receiver_map_not_pruned :
    PRUNE_INTERVAL ≤ 90000 - rlStale.last_prune ∧
    (rlStale.prune_if_needed 90000).by_ip = [] ∧
    (rlStale.prune_if_needed 90000).by_npub_receiver = [("npub", staleWindow)] ∧
    staleWindow.retain 90000 = false := by decide

/-! ## URL/IP safety (src/util.rs) and the safe proxy (src/proxy/mod.rs) -/

/-- An IP address: `v4` carries the 32-bit value, `v6` the 128-bit value. -/
inductive Ip where
  | v4 (bits : Nat)
  | v6 (bits : Nat)
deriving DecidableEq

/-- The `IpAddr::is_loopback`: `127.0.0.0/8` for IPv4, `::1` for IPv6. -/
def Ip.is_loopback : Ip → Bool
  | .v4 b => b / 2 ^ 24 == 127
  | .v6 b => b == 1

/-- The `IpAddr::is_unspecified`: `0.0.0.0` for IPv4, `::` for IPv6. -/
def Ip.is_unspecified : Ip → Bool
  | .v4 b => b == 0
  | .v6 b => b == 0

/-- The `IpAddr::is_multicast`: `224.0.0.0/4` for IPv4, `ff00::/8` for IPv6. -/
def Ip.is_multicast : Ip → Bool
  | .v4 b => b / 2 ^ 28 == 14
  | .v6 b => b / 2 ^ 120 == 255

/-- The fifteen-entry `BLOCKED_NETWORKS` list from src/util.rs, each CIDR as
`(is_ipv6, network_address, prefix_length)`. -/
def BLOCKED_NETWORKS : List (Bool × Nat × Nat) :=
  [ (false, 127 * 2 ^ 24, 8),                     -- 127.0.0.0/8
    (false, 10 * 2 ^ 24, 8),                      -- 10.0.0.0/8
    (false, 172 * 2 ^ 24 + 16 * 2 ^ 16, 12),      -- 172.16.0.0/12
    (false, 192 * 2 ^ 24 + 168 * 2 ^ 16, 16),     -- 192.168.0.0/16
    (false, 169 * 2 ^ 24 + 254 * 2 ^ 16, 16),     -- 169.254.0.0/16
    (false, 100 * 2 ^ 24 + 64 * 2 ^ 16, 10),      -- 100.64.0.0/10
    (false, 0, 8),                                -- 0.0.0.0/8
    (false, 224 * 2 ^ 24, 4),                     -- 224.0.0.0/4
    (false, 198 * 2 ^ 24 + 18 * 2 ^ 16, 15),      -- 198.18.0.0/15
    (false, 4294967295, 32),                      -- 255.255.255.255/32
    (true, 1, 128),                               -- ::1/128
    (true, 0, 128),                               -- ::/128
    (true, 252 * 2 ^ 120, 7),                     -- fc00::/7
    (true, 65152 * 2 ^ 112, 10),                  -- fe80::/10
    (true, 255 * 2 ^ 120, 8) ]                    -- ff00::/8

/-- The `IpNet::contains`: an address is in a CIDR iff its network-prefix bits
match; a network of the other address family contains nothing. -/
def cidrContains (ip : Ip) : Bool × Nat × Nat → Bool
  | (false, base, p) =>
    match ip with
    | .v4 b => b / 2 ^ (32 - p) == base / 2 ^ (32 - p)
    | .v6 _ => false
  | (true, base, p) =>
    match ip with
    | .v4 _ => false
    | .v6 b => b / 2 ^ (128 - p) == base / 2 ^ (128 - p)

/-- The `is_in_blocked_network` from src/util.rs. -/
def is_in_blocked_network (ip : Ip) : Bool :=
  BLOCKED_NETWORKS.any (cidrContains ip)

/-- The `is_blocked_proxy_host_ip` from src/util.rs. -/
def is_blocked_proxy_host_ip (ip : Ip) : Bool :=
  ip.is_loopback || ip.is_unspecified || ip.is_multicast || is_in_blocked_network ip

/-- The pieces of a parsed `url::Url` that the proxy checks inspect. -/
structure PUrl where
  scheme : String
  username : String
  password : Option String
  host : Option String
deriving DecidableEq

/-- The `is_valid_proxy_url` from src/util.rs: https scheme, empty username, no
password, and a host must be present. -/
def is_valid_proxy_url (u : PUrl) : Bool :=
  u.scheme == "https" && u.username == "" && u.password.isNone && u.host.isSome

/-- The `check_url` from src/proxy/mod.rs.  The configurable DNS resolver is an
oracle `dns : host ↦ some resolved-IPs` (`none` models a lookup error); the
source loop returning `Err("invalid IP")` at the first blocked resolved IP is
`List.any`. -/
def check_url (dns : String → Option (List Ip)) (u : PUrl) : Except String Unit :=
  if !(is_valid_proxy_url u) then .error "invalid URL"
  else
    match u.host with
    | none => .error "invalid host"
    | some h =>
      match dns h with
      | some ips =>
        if ips.any is_blocked_proxy_host_ip then .error "invalid IP" else .ok ()
      | none => .error "redirect with invalid URL DNS"

/-- Constant `PROXY_REQ_MAX_REDIRECTS` from src/proxy/mod.rs. -/
def PROXY_REQ_MAX_REDIRECTS : Nat := 2

/-- Constant `PROXY_MAX_BODY_SIZE` from src/proxy/mod.rs (2 MiB). -/
def PROXY_MAX_BODY_SIZE : Nat := 2 * 1024 * 1024

/-- One upstream hop as the handler observes it: a 3xx redirection whose
`Location`, resolved against the current URL by `Url::join`, is `target`
(`none` models a missing or unparsable `Location`), or a non-3xx response
with a status and a stream of body chunk sizes. -/
inductive UpstreamResp where
  | redirect (target : Option PUrl)
  | final (status : Nat) (chunks : List Nat)

/-- The body-streaming loop of `do_capped_req_with_validated_redirects`:
accumulate chunk sizes, failing as soon as the running total would exceed
`PROXY_MAX_BODY_SIZE`. -/
def readBody : Nat → List Nat → Except String Nat
  | acc, [] => .ok acc
  | acc, c :: rest =>
    if acc + c > PROXY_MAX_BODY_SIZE then .error "response too big"
    else readBody (acc + c) rest

/-- The redirect-following loop of `do_capped_req_with_validated_redirects`;
`remaining = PROXY_REQ_MAX_REDIRECTS - redirects`, so `remaining = 0` is the
source's `redirects >= PROXY_REQ_MAX_REDIRECTS` check.  The network is the
oracle `fetch` (`none` models a transport error of `send()`). -/
def fetchLoop (fetch : PUrl → Option UpstreamResp) (dns : String → Option (List Ip)) :
    Nat → PUrl → Except String (Nat × Nat)
  | remaining, url =>
    match fetch url with
    | none => .error "request error"
    | some (.redirect target) =>
      match remaining with
      | 0 => .error "too many redirects"
      | r + 1 =>
        match target with
        | none => .error "redirect without location"
        | some u2 =>
          match check_url dns u2 with
          | .error e => .error e
          | .ok _ => fetchLoop fetch dns r u2
    | some (.final status chunks) =>
      match readBody 0 chunks with
      | .error e => .error e
      | .ok n => .ok (status, n)

/-- The `do_capped_req_with_validated_redirects` from src/proxy/mod.rs: on success
returns the upstream status and the total body size collected. -/
def do_capped_req_with_validated_redirects (fetch : PUrl → Option UpstreamResp)
    (dns : String → Option (List Ip)) (url : PUrl) : Except String (Nat × Nat) :=
  fetchLoop fetch dns PROXY_REQ_MAX_REDIRECTS url

/-- A proxy response body: either one of the handler's fixed strings, or the
upstream bytes passed through (represented by their length). -/
inductive ProxyOut where
  | msg (s : String)
  | passthrough (size : Nat)
deriving DecidableEq

/-- The request-scoped inputs of the proxy `req` handler: the results of npub
validation, URL parsing, the rate-limit check and signature verification
(`none` models `verify_request` returning `Err`), plus the network oracles. -/
structure ProxyEnv where
  npubValid : Bool
  parsedUrl : Option PUrl
  rateAllowed : Bool
  sigCheck : Option Bool
  fetch : PUrl → Option UpstreamResp
  dns : String → Option (List Ip)

/-- The proxy `req` handler from src/proxy/mod.rs, as a function of the
request environment, returning the HTTP status code and body. -/
def proxy_req (env : ProxyEnv) : Nat × ProxyOut :=
  if !env.npubValid then (400, .msg "proxy_invalid_npub")
  else
    match env.parsedUrl with
    | none => (400, .msg "proxy_invalid_url")
    | some url =>
      if !env.rateAllowed then (429, .msg "proxy_rate_limit")
      else
        match check_url env.dns url with
        | .error _ => (400, .msg "proxy_invalid_url")
        | .ok _ =>
          match env.sigCheck with
          | some true =>
            match do_capped_req_with_validated_redirects env.fetch env.dns url with
            | .ok (status, n) => (status, .passthrough n)
            | .error _ => (500, .msg "proxy_invalid_request")
          | some false => (400, .msg "proxy_invalid_signature")
          | none => (400, .msg "proxy_invalid_signature")

/-- A well-formed https URL used as the initial proxy target in the scenarios. -/
def urlA : PUrl := ⟨"https", "", none, some "a.example"⟩

/-- The redirect target `http://example.com/` — its scheme is not https. -/
def urlHttp : PUrl := ⟨"http", "", none, some "example.com"⟩

/-- A DNS oracle resolving `a.example` to the public address `8.8.8.8`. -/
def dnsA : String → Option (List Ip) :=
  fun h => if h == "a.example" then some [.v4 (8 * 2 ^ 24 + 8 * 2 ^ 16 + 8 * 2 ^ 8 + 8)] else none

/-- A network where every request is answered with a 301 to `http://example.com/`. -/
def fetchHttpRedirect : PUrl → Option UpstreamResp :=
  fun _ => some (.redirect (some urlHttp))

/-- A network where every request is answered with a 301 back to `urlA`,
producing an unbounded redirect chain. -/
def fetchSelfRedirect : PUrl → Option UpstreamResp :=
  fun _ => some (.redirect (some urlA))

/-- A network answering 200 with a body of 2 MiB plus one extra byte. -/
def fetchBigBody : PUrl → Option UpstreamResp :=
  fun _ => some (.final 200 [2 * 1024 * 1024, 1])

/-- A proxy request environment that passes every gate and then meets the
non-https redirect. -/
def envSchemeViolation : ProxyEnv :=
  ⟨true, some urlA, true, some true, fetchHttpRedirect, dnsA⟩

/-- C3 counterexample: with every earlier gate passing, a 301 hop to
`http://example.com/` makes the `req` handler answer status 500 with body
`proxy_invalid_request` — not a 400-class response as the claim states. -/
theorem claim_C3_counterexample :
    proxy_req envSchemeViolation = (500, ProxyOut.msg "proxy_invalid_request") ∧
    ¬ ((proxy_req envSchemeViolation).1 < 500) :=
  ⟨rfl, by decide⟩

/-- C3 (amended): every error of the capped redirect-validated fetch — in
particular a redirect hop to a non-https scheme, a chain of three redirects
(max 2), and a body exceeding 2 MiB — is mapped by the `req` handler to a
500 response with body `proxy_invalid_request`, not to a 400-class response. -/
theorem claim_C3_fetch_errors_give_500 (env : ProxyEnv) (url : PUrl) (e : String)
    (h1 : env.npubValid = true) (h2 : env.parsedUrl = some url)
    (h3 : env.rateAllowed = true) (h4 : check_url env.dns url = .ok ())
    (h5 : env.sigCheck = some true)
    (h6 : do_capped_req_with_validated_redirects env.fetch env.dns url = .error e) :
    proxy_req env = (500, ProxyOut.msg "proxy_invalid_request") ∧
    do_capped_req_with_validated_redirects fetchHttpRedirect dnsA urlA = .error "invalid URL" ∧
    do_capped_req_with_validated_redirects fetchSelfRedirect dnsA urlA = .error "too many redirects" ∧
    do_capped_req_with_validated_redirects fetchBigBody dnsA urlA = .error "response too big" := by
  refine ⟨?_, rfl, rfl, rfl⟩
  simp [proxy_req, h1, h2, h3, h4, h5, h6]

/-- Witness for C3 (amended), instantiated at the non-https redirect scenario. -/
theorem claim_C3_witness :
    proxy_req envSchemeViolation = (500, ProxyOut.msg "proxy_invalid_request") ∧
    do_capped_req_with_validated_redirects fetchHttpRedirect dnsA urlA = .error "invalid URL" ∧
    do_capped_req_with_validated_redirects fetchSelfRedirect dnsA urlA = .error "too many redirects" ∧
    do_capped_req_with_validated_redirects fetchBigBody dnsA urlA = .error "response too big" :=
  claim_C3_fetch_errors_give_500 envSchemeViolation urlA "invalid URL" rfl rfl rfl rfl rfl rfl

/-- Transcription of the claim's IPv4 rejection set: the union of the ten
IPv4 CIDR ranges of the blocklist (loopback `127.0.0.0/8`, unspecified
`0.0.0.0` and multicast `224.0.0.0/4` fall inside them), written as
explicit numeric ranges. -/
def specBlockedV4 (b : Nat) : Prop :=
  (2130706432 ≤ b ∧ b < 2147483648) ∨   -- 127.0.0.0/8
  (167772160 ≤ b ∧ b < 184549376) ∨     -- 10.0.0.0/8
  (2886729728 ≤ b ∧ b < 2887778304) ∨   -- 172.16.0.0/12
  (3232235520 ≤ b ∧ b < 3232301056) ∨   -- 192.168.0.0/16
  (2851995648 ≤ b ∧ b < 2852061184) ∨   -- 169.254.0.0/16
  (1681915904 ≤ b ∧ b < 1686110208) ∨   -- 100.64.0.0/10
  (b < 16777216) ∨                      -- 0.0.0.0/8
  (3758096384 ≤ b ∧ b < 4026531840) ∨   -- 224.0.0.0/4
  (3323068416 ≤ b ∧ b < 3323199488) ∨   -- 198.18.0.0/15
  (b = 4294967295)                      -- 255.255.255.255/32

/-- Transcription of the claim's IPv6 rejection set: `::1`, `::`, and the
`fc00::/7`, `fe80::/10`, `ff00::/8` ranges (multicast `ff00::/8` coincides
with the last range). -/
def specBlockedV6 (b : Nat) : Prop :=
  b = 1 ∨ b = 0 ∨
  (252 * 2 ^ 120 ≤ b ∧ b < 254 * 2 ^ 120) ∨                  -- fc00::/7
  (65152 * 2 ^ 112 ≤ b ∧ b < 65152 * 2 ^ 112 + 2 ^ 118) ∨   -- fe80::/10
  (255 * 2 ^ 120 ≤ b ∧ b < 256 * 2 ^ 120)                    -- ff00::/8

/-- C5: the proxy URL check accepts exactly https URLs with empty username,
no password and a present host; a blocked IP is exactly one that is loopback,
unspecified, multicast or inside the fifteen listed CIDR ranges; and, given a
resolving host, `check_url` succeeds iff the URL is valid and no resolved IP
is blocked. -/
theorem claim_C5_url_and_ip_validation :
    (∀ u : PUrl, is_valid_proxy_url u = true ↔
      (u.scheme = "https" ∧ u.username = "" ∧ u.password = none ∧ u.host ≠ none)) ∧
    (∀ b : Nat, b < 2 ^ 32 → (is_blocked_proxy_host_ip (.v4 b) = true ↔ specBlockedV4 b)) ∧
    (∀ b : Nat, b < 2 ^ 128 → (is_blocked_proxy_host_ip (.v6 b) = true ↔ specBlockedV6 b)) ∧
    (∀ (dns : String → Option (List Ip)) (u : PUrl) (h : String) (ips : List Ip),
      u.host = some h → dns h = some ips →
      (check_url dns u = .ok () ↔
        is_valid_proxy_url u = true ∧ ∀ ip ∈ ips, is_blocked_proxy_host_ip ip = false)) := by
  refine ⟨?_, ?_, ?_, ?_⟩
  · intro u
    simp [is_valid_proxy_url, Bool.and_eq_true, Option.isNone_iff_eq_none,
      Option.isSome_iff_ne_none, and_assoc]
  · intro b hb
    simp only [is_blocked_proxy_host_ip, Ip.is_loopback, Ip.is_unspecified, Ip.is_multicast,
      is_in_blocked_network, BLOCKED_NETWORKS, cidrContains, List.any_cons, List.any_nil,
      Bool.or_eq_true, beq_iff_eq, specBlockedV4]
    norm_num
    omega
  · intro b hb
    simp only [is_blocked_proxy_host_ip, Ip.is_loopback, Ip.is_unspecified, Ip.is_multicast,
      is_in_blocked_network, BLOCKED_NETWORKS, cidrContains, List.any_cons, List.any_nil,
      Bool.or_eq_true, beq_iff_eq, specBlockedV6]
    norm_num
    omega
  · intro dns u h ips hh hdns
    by_cases hv : is_valid_proxy_url u
    · have hcu : check_url dns u =
          (if ips.any is_blocked_proxy_host_ip then Except.error "invalid IP"
           else Except.ok ()) := by
        simp [check_url, hv, hh, hdns]
      rw [hcu]
      cases hany : ips.any is_blocked_proxy_host_ip with
      | true =>
        obtain ⟨ip, hmem, hip⟩ := List.any_eq_true.mp hany
        show Except.error "invalid IP" = Except.ok () ↔ _
        constructor
        · intro hc; exact Except.noConfusion hc
        · rintro ⟨-, hall⟩
          exact absurd (hall ip hmem) (by simp [hip])
      | false =>
        show Except.ok () = Except.ok () ↔ _
        constructor
        · intro _
          refine ⟨hv, fun ip hmem => ?_⟩
          have hx := List.any_eq_false.mp hany ip hmem
          simpa using hx
        · intro _; rfl
    · have hv' : is_valid_proxy_url u = false := by simpa using hv
      have hcu : check_url dns u = Except.error "invalid URL" := by
        simp [check_url, hv']
      rw [hcu]
      constructor
      · intro hc; exact Except.noConfusion hc
      · rintro ⟨hvv, -⟩; exact absurd hvv hv

/-- Witness for C5: `https://a.example` with empty credentials is a valid
proxy URL, `10.0.0.5` is blocked, `8.8.8.8` is not, and `check_url` accepts
`urlA` under the `dnsA` resolver. -/
theorem claim_C5_witness :
    is_valid_proxy_url urlA = true ∧
    is_blocked_proxy_host_ip (.v4 (10 * 2 ^ 24 + 5)) = true ∧
    ¬ is_blocked_proxy_host_ip (.v4 (8 * 2 ^ 24 + 8 * 2 ^ 16 + 8 * 2 ^ 8 + 8)) = true ∧
    check_url dnsA urlA = .ok () := by
  refine ⟨?_, ?_, by decide, ?_⟩
  · exact (claim_C5_url_and_ip_validation.1 urlA).mpr (by simp [urlA])
  · exact (claim_C5_url_and_ip_validation.2.1 (10 * 2 ^ 24 + 5) (by norm_num)).mpr
      (by unfold specBlockedV4; norm_num)
  · exact (claim_C5_url_and_ip_validation.2.2.2 dnsA urlA "a.example"
      [.v4 (8 * 2 ^ 24 + 8 * 2 ^ 16 + 8 * 2 ^ 8 + 8)] rfl rfl).mpr (by decide)

/-! ## Preference flags (src/notification/preferences.rs) -/

namespace PreferencesFlags

/-- Bit constants of the `PreferencesFlags` bitflags over `i64`. -/
def BillSigned : Int := 1

def BillAccepted : Int := 2 ^ 1

def BillAcceptanceRequested : Int := 2 ^ 2

def BillAcceptanceRejected : Int := 2 ^ 3

def BillAcceptanceTimeout : Int := 2 ^ 4

def BillAcceptanceRecourse : Int := 2 ^ 5

def BillPaymentRequested : Int := 2 ^ 6

def BillPaymentRejected : Int := 2 ^ 7

def BillPaymentTimeout : Int := 2 ^ 8

def BillPaymentRecourse : Int := 2 ^ 9

def BillRecourseRejected : Int := 2 ^ 10

def BillRecourseTimeout : Int := 2 ^ 11

def BillSellOffered : Int := 2 ^ 12

def BillBuyingRejected : Int := 2 ^ 13

def BillPaid : Int := 2 ^ 14

def BillRecoursePaid : Int := 2 ^ 15

def BillEndorsed : Int := 2 ^ 16

def BillSold : Int := 2 ^ 17

def BillMintingRequested : Int := 2 ^ 18

def BillNewQuote : Int := 2 ^ 19

def BillQuoteApproved : Int := 2 ^ 20

/-- The `PreferencesFlags::all().bits()`: the union of the 21 defined bits. -/
def all_bits : Int := 2 ^ 21 - 1

/-- The `PreferencesFlags::from_bits_truncate`: keep only the defined bits. -/
def from_bits_truncate (b : Int) : Int := Int.land b all_bits

/-- The `PreferencesFlags::contains`: `(self.bits & other.bits) == other.bits`. -/
def contains (self other : Int) : Bool := Int.land self other == other

/-- The `PreferencesFlags::from_name`, generated by the `bitflags!` macro: map a
flag's exact source name to its bit. -/
def from_name : String → Option Int
  | "BillSigned" => some BillSigned
  | "BillAccepted" => some BillAccepted
  | "BillAcceptanceRequested" => some BillAcceptanceRequested
  | "BillAcceptanceRejected" => some BillAcceptanceRejected
  | "BillAcceptanceTimeout" => some BillAcceptanceTimeout
  | "BillAcceptanceRecourse" => some BillAcceptanceRecourse
  | "BillPaymentRequested" => some BillPaymentRequested
  | "BillPaymentRejected" => some BillPaymentRejected
  | "BillPaymentTimeout" => some BillPaymentTimeout
  | "BillPaymentRecourse" => some BillPaymentRecourse
  | "BillRecourseRejected" => some BillRecourseRejected
  | "BillRecourseTimeout" => some BillRecourseTimeout
  | "BillSellOffered" => some BillSellOffered
  | "BillBuyingRejected" => some BillBuyingRejected
  | "BillPaid" => some BillPaid
  | "BillRecoursePaid" => some BillRecoursePaid
  | "BillEndorsed" => some BillEndorsed
  | "BillSold" => some BillSold
  | "BillMintingRequested" => some BillMintingRequested
  | "BillNewQuote" => some BillNewQuote
  | "BillQuoteApproved" => some BillQuoteApproved
  | _ => none

/-- The `impl Default for PreferencesFlags` from src/notification/preferences.rs:
the fifteen default bill-event flags OR-ed together. -/
def default : Int :=
  Int.lor BillSigned (Int.lor BillAccepted (Int.lor BillAcceptanceRequested
    (Int.lor BillAcceptanceTimeout (Int.lor BillAcceptanceRejected
    (Int.lor BillAcceptanceRecourse (Int.lor BillPaid (Int.lor BillPaymentRequested
    (Int.lor BillPaymentTimeout (Int.lor BillPaymentRejected
    (Int.lor BillPaymentRecourse (Int.lor BillRecoursePaid
    (Int.lor BillRecourseRejected (Int.lor BillRecourseTimeout
    BillMintingRequested)))))))))))))

end PreferencesFlags

/-! ## Notification store (src/notification/notification_store.rs) -/

/-- A row of `notif_challenges`. -/
structure ChallengeRow where
  npub : String
  challenge : String
  created_at : Int
deriving DecidableEq

/-- A row of `notif_email_verification`. -/
structure VerificationRow where
  npub : String
  email : String
  token : String
  confirmed : Bool
  sent_at : Int
deriving DecidableEq

/-- A row of `notif_email_preferences`; `flags` is the raw stored `i64`. -/
structure PrefRow where
  npub : String
  enabled : Bool
  token : String
  email : String
  email_confirmed : Bool
  ebill_url : String
  flags : Int
deriving DecidableEq

/-- The in-memory `EmailPreferences` handed to the handlers; its `flags` are
the bits of the loaded `PreferencesFlags` value. -/
structure EmailPreferences where
  npub : String
  enabled : Bool
  token : String
  email : String
  email_confirmed : Bool
  ebill_url : String
  flags : Int
deriving DecidableEq

/-- The three notification tables, each keyed by `npub` (primary key). -/
structure NotifState where
  challenges : List ChallengeRow
  verifications : List VerificationRow
  preferences : List PrefRow
deriving DecidableEq

/-- The `get_challenge_for_npub`: `SELECT ... WHERE npub = $1`. -/
def NotifState.get_challenge_for_npub (st : NotifState) (npub : String) : Option ChallengeRow :=
  st.challenges.find? (fun c => c.npub == npub)

/-- The `remove_challenge_for_npub`: `DELETE FROM notif_challenges WHERE npub = $1`. -/
def NotifState.remove_challenge_for_npub (st : NotifState) (npub : String) : NotifState :=
  { st with challenges := st.challenges.filter (fun c => !(c.npub == npub)) }

/-- The `INSERT ... ON CONFLICT (npub) DO UPDATE` on `notif_email_verification`. -/
def upsertVerification (rows : List VerificationRow) (r : VerificationRow) :
    List VerificationRow :=
  if rows.any (fun v => v.npub == r.npub) then
    rows.map (fun v => if v.npub == r.npub then r else v)
  else rows ++ [r]

/-- The `INSERT ... ON CONFLICT (npub) DO UPDATE` on `notif_email_preferences`. -/
def upsertPreferences (rows : List PrefRow) (r : PrefRow) : List PrefRow :=
  if rows.any (fun p => p.npub == r.npub) then
    rows.map (fun p => if p.npub == r.npub then r else p)
  else rows ++ [r]

/-- The `insert_confirmation_email_sent_and_preferences_for_npub`: in one
transaction, upsert the verification row (reset to unconfirmed, new token,
`sent_at = now`) and the preferences stub (`enabled = false`,
`email_confirmed = false`). -/
def NotifState.insert_confirmation_email_sent_and_preferences_for_npub
    (st : NotifState) (npub email confirmation_token preferences_token ebill_url : String)
    (flags : Int) (now : Int) : NotifState :=
  { st with
    verifications :=
      upsertVerification st.verifications ⟨npub, email, confirmation_token, false, now⟩
    preferences :=
      upsertPreferences st.preferences
        ⟨npub, false, preferences_token, email, false, ebill_url, flags⟩ }

/-- The `get_confirmation_email_state_for_token`: `SELECT ... WHERE token = $1`. -/
def NotifState.get_confirmation_email_state_for_token (st : NotifState) (token : String) :
    Option VerificationRow :=
  st.verifications.find? (fun v => v.token == token)

/-- The `set_confirmation_email_confirmed_for_npub`: in one transaction, delete
the verification row for the npub and set `email_confirmed = true`,
`enabled = true` on the preferences row. -/
def NotifState.set_confirmation_email_confirmed_for_npub (st : NotifState) (npub : String) :
    NotifState :=
  { st with
    verifications := st.verifications.filter (fun v => !(v.npub == npub))
    preferences := st.preferences.map (fun p =>
      if p.npub == npub then { p with email_confirmed := true, enabled := true } else p) }

/-- The `get_email_preferences_for_npub`: load the row and truncate its flags
with `PreferencesFlags::from_bits_truncate`. -/
def NotifState.get_email_preferences_for_npub (st : NotifState) (npub : String) :
    Option EmailPreferences :=
  (st.preferences.find? (fun p => p.npub == npub)).map (fun p =>
    ⟨p.npub, p.enabled, p.token, p.email, p.email_confirmed, p.ebill_url,
      PreferencesFlags.from_bits_truncate p.flags⟩)

/-- The `get_email_preferences_for_token`: as by npub, but looked up by token. -/
def NotifState.get_email_preferences_for_token (st : NotifState) (token : String) :
    Option EmailPreferences :=
  (st.preferences.find? (fun p => p.token == token)).map (fun p =>
    ⟨p.npub, p.enabled, p.token, p.email, p.email_confirmed, p.ebill_url,
      PreferencesFlags.from_bits_truncate p.flags⟩)

/-! ## Notification handlers (src/notification/mod.rs) -/

/-- Constant `CHALLENGE_EXPIRY_SECONDS`. -/
def CHALLENGE_EXPIRY_SECONDS : Int := 120

/-- Constant `EMAIL_CONFIRMATION_EXPIRY_SECONDS`. -/
def EMAIL_CONFIRMATION_EXPIRY_SECONDS : Int := 60 * 60 * 24

/-- Constant `BITCR_PREFIX`, the required id prefix of a send payload. -/
def BITCR_PREFIX : String := "bitcr"

/-- Is `c` in the URL-safe base64 alphabet `A-Z a-z 0-9 - _`. -/
def isB64UrlChar (c : Char) : Bool :=
  decide ((65 ≤ c.toNat ∧ c.toNat ≤ 90) ∨ (97 ≤ c.toNat ∧ c.toNat ≤ 122) ∨
    (48 ≤ c.toNat ∧ c.toNat ≤ 57) ∨ c = '-' ∨ c = '_')

/-- The 6-bit value of a URL-safe base64 symbol. -/
def b64SymbolValue (c : Char) : Nat :=
  if 65 ≤ c.toNat ∧ c.toNat ≤ 90 then c.toNat - 65
  else if 97 ≤ c.toNat ∧ c.toNat ≤ 122 then c.toNat - 97 + 26
  else if 48 ≤ c.toNat ∧ c.toNat ≤ 57 then c.toNat - 48 + 52
  else if c = '-' then 62
  else 63

/-- Whether `URL_SAFE_NO_PAD.decode` succeeds on `s`: every character in the
alphabet, length mod 4 not 1, and the trailing bits of the last symbol zero
(the engine's strict default). -/
def b64UrlNoPadValid (s : String) : Bool :=
  s.data.all isB64UrlChar &&
  (match s.data.length % 4, s.data.getLast? with
   | 1, _ => false
   | 2, some c => b64SymbolValue c % 16 == 0
   | 3, some c => b64SymbolValue c % 4 == 0
   | _, _ => true)

/-- The responses of `confirm_email`, by their HTML error/success message. -/
inductive ConfirmResp where
  | invalidToken
  | tokenExpired
  | alreadyConfirmed
  | invalidEmail
  | success
deriving DecidableEq

/-- The HTTP status the `confirm_email` handler pairs with each response. -/
def ConfirmResp.status : ConfirmResp → Nat
  | .success => 200
  | _ => 400

/-- The page message the `confirm_email` handler renders for each response. -/
def ConfirmResp.message : ConfirmResp → String
  | .invalidToken => "invalid token"
  | .tokenExpired => "token expired"
  | .alreadyConfirmed => "email already confirmed"
  | .invalidEmail => "invalid email"
  | .success => "Success! Email Confirmed"

/-- The `confirm_email` handler from src/notification/mod.rs (`now` is the
`Utc::now()` of the call). -/
def confirm_email (st : NotifState) (token : String) (now : Int) : ConfirmResp × NotifState :=
  if !(b64UrlNoPadValid token) then (.invalidToken, st)
  else
    match st.get_confirmation_email_state_for_token token with
    | none => (.invalidToken, st)
    | some conf =>
      if now > conf.sent_at + EMAIL_CONFIRMATION_EXPIRY_SECONDS then (.tokenExpired, st)
      else if conf.confirmed then (.alreadyConfirmed, st)
      else
        match st.get_email_preferences_for_npub conf.npub with
        | none => (.invalidToken, st)
        | some pref =>
          if !(conf.email == pref.email) then (.invalidEmail, st)
          else (.success, st.set_confirmation_email_confirmed_for_npub conf.npub)

/-- The body of a register request. -/
structure RegisterReq where
  npub : String
  signed_challenge : String
  ebill_url : String
  email : String
deriving DecidableEq

/-- The request-scoped inputs of `register`: the outcomes of npub and email
validation and the rate-limit check, the Schnorr verifier as an oracle over
`(challenge, signature)` pairs (`none` models `verify_signature` returning
`Err`), the outcomes of building and sending the confirmation email, and the
two freshly generated random tokens. -/
structure RegisterEnv where
  npubValid : Bool
  emailValid : Bool
  rateAllowed : Bool
  verify : String → String → Option Bool
  emailBuildOk : Bool
  emailSendOk : Bool
  confToken : String
  prefToken : String

/-- The responses of `register`, by their JSON message. -/
inductive RegisterResp where
  | invalidNpub
  | invalidEmail
  | rateLimited
  | noChallenge
  | challengeExpired
  | invalidChallenge
  | challengeCheckError
  | mailError
  | registered (preferences_token : String)
deriving DecidableEq

/-- The HTTP status the `register` handler pairs with each response. -/
def RegisterResp.status : RegisterResp → Nat
  | .registered _ => 200
  | .rateLimited => 429
  | .mailError => 500
  | _ => 400

/-- The `register` handler from src/notification/mod.rs. -/
def register (env : RegisterEnv) (st : NotifState) (req : RegisterReq) (now : Int) :
    RegisterResp × NotifState :=
  if !env.npubValid then (.invalidNpub, st)
  else if !env.emailValid then (.invalidEmail, st)
  else if !env.rateAllowed then (.rateLimited, st)
  else
    match st.get_challenge_for_npub req.npub with
    | none => (.noChallenge, st)
    | some c =>
      if now > c.created_at + CHALLENGE_EXPIRY_SECONDS then (.challengeExpired, st)
      else
        match env.verify c.challenge req.signed_challenge with
        | some true =>
          let st1 := st.remove_challenge_for_npub c.npub
          if !env.emailBuildOk then (.mailError, st1)
          else if !env.emailSendOk then (.mailError, st1)
          else
            (.registered env.prefToken,
             st1.insert_confirmation_email_sent_and_preferences_for_npub c.npub req.email
               env.confToken env.prefToken req.ebill_url PreferencesFlags.default now)
        | some false => (.invalidChallenge, st)
        | none => (.challengeCheckError, st)

/-- The signed payload of a send request. -/
structure SendPayload where
  kind : String
  id : String
  receiver : String
  sender : String
deriving DecidableEq

/-- The request-scoped inputs of `send`: outcomes of the two npub
validations, the rate-limit check, `verify_request` (`none` models `Err`),
and of building and dispatching the notification email. -/
structure SendEnv where
  receiverValid : Bool
  senderValid : Bool
  rateAllowed : Bool
  verify : Option Bool
  emailBuildOk : Bool
  emailSendOk : Bool

/-- The responses of `send`, by their JSON message. -/
inductive SendResp where
  | invalidReceiverNpub
  | invalidSenderNpub
  | rateLimited
  | invalidKind
  | invalidId
  | accepted
  | invalidSignature
  | signatureCheckError
  | mailBuildError
  | mailSendError
deriving DecidableEq

/-- The HTTP status the `send` handler pairs with each response. -/
def SendResp.status : SendResp → Nat
  | .accepted => 200
  | .rateLimited => 429
  | .mailBuildError => 500
  | .mailSendError => 500
  | _ => 400

/-- The JSON message the `send` handler pairs with each response. -/
def SendResp.message : SendResp → String
  | .invalidReceiverNpub => "Invalid receiver npub"
  | .invalidSenderNpub => "Invalid sender npub"
  | .rateLimited => "Please try again later"
  | .invalidKind => "Invalid kind"
  | .invalidId => "Invalid ID"
  | .accepted => "OK"
  | .invalidSignature => "invalid signature"
  | .signatureCheckError => "error checking signature"
  | .mailBuildError => "send mail confirmation error"
  | .mailSendError => "Error sending mail"

/-- The `send` handler from src/notification/mod.rs.  The second component
lists the dispatched notification emails as `(recipient email, flag bit)`
pairs — empty when no email leaves the service. -/
def send (env : SendEnv) (st : NotifState) (payload : SendPayload) :
    SendResp × List (String × Int) :=
  if !env.receiverValid then (.invalidReceiverNpub, [])
  else if !env.senderValid then (.invalidSenderNpub, [])
  else if !env.rateAllowed then (.rateLimited, [])
  else
    match PreferencesFlags.from_name payload.kind with
    | none => (.invalidKind, [])
    | some notification_type =>
      if payload.id.data.isEmpty || !( BITCR_PREFIX.data.isPrefixOf payload.id.data) then
        (.invalidId, [])
      else
        match env.verify with
        | some true =>
          match st.get_email_preferences_for_npub payload.receiver with
          | none => (.accepted, [])
          | some pref =>
            if !pref.enabled then (.accepted, [])
            else if !(PreferencesFlags.contains pref.flags notification_type) then
              (.accepted, [])
            else if !env.emailBuildOk then (.mailBuildError, [])
            else if !env.emailSendOk then (.mailSendError, [])
            else (.accepted, [(pref.email, notification_type)])
        | some false => (.invalidSignature, [])
        | none => (.signatureCheckError, [])

/-! ## Claims about the notification workflow -/

lemma confirm_email_success_shape (st st' : NotifState) (token : String) (now : Int)
    (h : confirm_email st token now = (ConfirmResp.success, st')) :
    b64UrlNoPadValid token = true ∧
    ∃ conf, st.get_confirmation_email_state_for_token token = some conf ∧
      st' = st.set_confirmation_email_confirmed_for_npub conf.npub := by
  unfold confirm_email at h
  split at h
  · simp at h
  · rename_i hb64
    split at h
    · simp at h
    · rename_i conf hconf
      split at h
      · simp at h
      · split at h
        · simp at h
        · split at h
          · simp at h
          · rename_i pref hpref
            split at h
            · simp at h
            · injection h with h1 h2
              exact ⟨by simpa using hb64, conf, hconf, h2.symm⟩

/-- C1 (amended): after a successful `confirm_email`, a repeated call with
the same token finds no confirmation row — the success deleted it — so it
returns the 400 `invalid token` response and leaves the state untouched;
the `email already confirmed` branch cannot fire.  Token uniqueness across
verification rows (a 256-bit-random invariant of the store) is assumed. -/
theorem claim_C1_confirm_email_replay (st st' : NotifState) (token : String) (now now' : Int)
    (huniq : ∀ w₁ ∈ st.verifications, ∀ w₂ ∈ st.verifications,
      w₁.token = w₂.token → w₁.npub = w₂.npub)
    (hsucc : confirm_email st token now = (ConfirmResp.success, st')) :
    confirm_email st' token now' = (ConfirmResp.invalidToken, st') ∧
    ConfirmResp.status .invalidToken = 400 := by
  obtain ⟨hb64, conf, hconf, hst'⟩ := confirm_email_success_shape st st' token now hsucc
  unfold NotifState.get_confirmation_email_state_for_token at hconf
  have hmem : conf ∈ st.verifications := List.mem_of_find?_eq_some hconf
  have htok : conf.token = token := by
    have := List.find?_some hconf
    simpa using this
  have hnone : st'.get_confirmation_email_state_for_token token = none := by
    rw [hst']
    unfold NotifState.get_confirmation_email_state_for_token
      NotifState.set_confirmation_email_confirmed_for_npub
    apply List.find?_eq_none.mpr
    intro v hv hvtok
    obtain ⟨hvmem, hvpred⟩ := List.mem_filter.mp hv
    have hv1 : v.token = token := by simpa using hvtok
    have hv2 : v.npub = conf.npub := huniq v hvmem conf hmem (by rw [hv1, htok])
    simp [hv2] at hvpred
  refine ⟨?_, rfl⟩
  simp [confirm_email, hb64, hnone]

/-- State for the C1 scenario: one unconfirmed verification row and a
matching preferences row for the same npub and email. -/
def stC1 : NotifState :=
  { challenges := []
    verifications := [⟨"npub1n", "a@b.co", "AAAA", false, 0⟩]
    preferences := [⟨"npub1n", false, "BBBB", "a@b.co", false, "https://x/", 0⟩] }

/-- C1 counterexample: the first confirmation with token `AAAA` succeeds, and
the repeated call answers `invalid token` — not `email already confirmed` as
the claim states. -/
theorem claim_C1_counterexample :
    (confirm_email stC1 "AAAA" 1).1 = ConfirmResp.success ∧
    (confirm_email (confirm_email stC1 "AAAA" 1).2 "AAAA" 2).1 = ConfirmResp.invalidToken ∧
    ConfirmResp.invalidToken ≠ ConfirmResp.alreadyConfirmed := by
  refine ⟨rfl, rfl, by decide⟩

/-- Witness for C1 (amended) at the concrete `stC1` scenario. -/
theorem claim_C1_witness :
    confirm_email (confirm_email stC1 "AAAA" 1).2 "AAAA" 2 =
      (ConfirmResp.invalidToken, (confirm_email stC1 "AAAA" 1).2) ∧
    ConfirmResp.status .invalidToken = 400 :=
  claim_C1_confirm_email_replay stC1 (confirm_email stC1 "AAAA" 1).2 "AAAA" 1 2
    (by decide) rfl

/-- Preferences state for C6: the stored flags value `2 ^ 21` uses only a bit
outside the 21 named flag positions. -/
def stC6 : NotifState :=
  { challenges := []
    verifications := []
    preferences := [⟨"npub1n", true, "BBBB", "a@b.co", true, "https://x/", 2 ^ 21⟩] }

/-- C6 counterexample: the row stores flags `2 ^ 21` (an unknown bit), yet
both readers return flags `0` — `from_bits_truncate` drops unknown storage
bits instead of preserving them. -/
theorem claim_C6_counterexample :
    stC6.get_email_preferences_for_npub "npub1n" =
      some ⟨"npub1n", true, "BBBB", "a@b.co", true, "https://x/", 0⟩ ∧
    stC6.get_email_preferences_for_token "BBBB" =
      some ⟨"npub1n", true, "BBBB", "a@b.co", true, "https://x/", 0⟩ ∧
    (0 : Int) ≠ 2 ^ 21 := by
  refine ⟨rfl, rfl, by decide⟩

/-- C6 (amended): reading preferences (by npub or by token) returns the
stored flags truncated to the 21 known flag positions — unknown storage bits
are dropped, not preserved. -/
theorem claim_C6_flags_truncated_on_read (st : NotifState) (npub token : String)
    (p q : PrefRow)
    (h1 : st.preferences.find? (fun r => r.npub == npub) = some p)
    (h2 : st.preferences.find? (fun r => r.token == token) = some q) :
    st.get_email_preferences_for_npub npub =
      some ⟨p.npub, p.enabled, p.token, p.email, p.email_confirmed, p.ebill_url,
        Int.land p.flags (2 ^ 21 - 1)⟩ ∧
    st.get_email_preferences_for_token token =
      some ⟨q.npub, q.enabled, q.token, q.email, q.email_confirmed, q.ebill_url,
        Int.land q.flags (2 ^ 21 - 1)⟩ := by
  constructor
  · simp [NotifState.get_email_preferences_for_npub, h1,
      PreferencesFlags.from_bits_truncate, PreferencesFlags.all_bits]
  · simp [NotifState.get_email_preferences_for_token, h2,
      PreferencesFlags.from_bits_truncate, PreferencesFlags.all_bits]

/-- Witness for C6 (amended) at the `stC6` row. -/
theorem claim_C6_witness :
    stC6.get_email_preferences_for_npub "npub1n" =
      some ⟨"npub1n", true, "BBBB", "a@b.co", true, "https://x/",
        Int.land (2 ^ 21) (2 ^ 21 - 1)⟩ ∧
    stC6.get_email_preferences_for_token "BBBB" =
      some ⟨"npub1n", true, "BBBB", "a@b.co", true, "https://x/",
        Int.land (2 ^ 21) (2 ^ 21 - 1)⟩ :=
  claim_C6_flags_truncated_on_read stC6 "npub1n" "BBBB"
    ⟨"npub1n", true, "BBBB", "a@b.co", true, "https://x/", 2 ^ 21⟩
    ⟨"npub1n", true, "BBBB", "a@b.co", true, "https://x/", 2 ^ 21⟩ rfl rfl

/-- C7: with the input validations and the rate limit passing, `register`
answers 400 `No challenge existing` when no challenge row exists for the
npub, 400 `challenge expired` when `now − created_at` exceeds 120 s, rejects
an invalid signature over the stored challenge with 400, and its outcome
depends on the verifier only through its value at the stored challenge and
the supplied signature — no client-supplied challenge string enters the
verification. -/
theorem claim_C7_register_challenge_checks (env : RegisterEnv) (st : NotifState)
    (req : RegisterReq) (now : Int) (v' : String → String → Option Bool)
    (h1 : env.npubValid = true) (h2 : env.emailValid = true) (h3 : env.rateAllowed = true) :
    (st.get_challenge_for_npub req.npub = none →
      register env st req now = (.noChallenge, st) ∧ RegisterResp.status .noChallenge = 400) ∧
    (∀ c, st.get_challenge_for_npub req.npub = some c →
      now > c.created_at + CHALLENGE_EXPIRY_SECONDS →
      register env st req now = (.challengeExpired, st) ∧
        RegisterResp.status .challengeExpired = 400) ∧
    (∀ c, st.get_challenge_for_npub req.npub = some c →
      ¬ now > c.created_at + CHALLENGE_EXPIRY_SECONDS →
      env.verify c.challenge req.signed_challenge = some false →
      register env st req now = (.invalidChallenge, st)) ∧
    (∀ c, st.get_challenge_for_npub req.npub = some c →
      v' c.challenge req.signed_challenge = env.verify c.challenge req.signed_challenge →
      register { env with verify := v' } st req now = register env st req now) := by
  refine ⟨?_, ?_, ?_, ?_⟩
  · intro h
    exact ⟨by simp [register, h1, h2, h3, h], rfl⟩
  · intro c hc hexp
    exact ⟨by simp [register, h1, h2, h3, hc, hexp], rfl⟩
  · intro c hc hexp hv
    simp [register, h1, h2, h3, hc, hexp, hv]
  · intro c hc hv
    simp [register, h1, h2, h3, hc, hv]

/-- A register environment whose gates all pass and whose verifier accepts. -/
def envReg : RegisterEnv :=
  ⟨true, true, true, fun _ _ => some true, true, true, "CCCC", "DDDD"⟩

/-- Store state holding one challenge for `npub1n`, created at time 0. -/
def stC7 : NotifState :=
  { challenges := [⟨"npub1n", "abcd", 0⟩], verifications := [], preferences := [] }

/-- A register request for `npub1n`. -/
def reqC7 : RegisterReq := ⟨"npub1n", "sig", "https://x/", "a@b.co"⟩

/-- Witness for C7: at 121 s after the challenge was stored, `register`
answers `challenge expired` with status 400. -/
theorem claim_C7_witness :
    register envReg stC7 reqC7 121 = (.challengeExpired, stC7) ∧
    RegisterResp.status .challengeExpired = 400 :=
  (claim_C7_register_challenge_checks envReg stC7 reqC7 121 envReg.verify
    rfl rfl rfl).2.1 ⟨"npub1n", "abcd", 0⟩ rfl (by decide)

/-- C8: with valid npubs, the rate limit passing, a known kind, a valid id
and a verified signature, `send` answers 200 `OK` and dispatches no email
whenever the receiver has no preferences row, or `enabled` is false, or the
flag bit of the payload kind is not set. -/
theorem claim_C8_send_silent_drop (env : SendEnv) (st : NotifState) (payload : SendPayload)
    (nt : Int)
    (h1 : env.receiverValid = true) (h2 : env.senderValid = true) (h3 : env.rateAllowed = true)
    (hk : PreferencesFlags.from_name payload.kind = some nt)
    (hid : (payload.id.data.isEmpty || !( BITCR_PREFIX.data.isPrefixOf payload.id.data)) = false)
    (hv : env.verify = some true) :
    (st.get_email_preferences_for_npub payload.receiver = none →
      send env st payload = (.accepted, [])) ∧
    (∀ pref, st.get_email_preferences_for_npub payload.receiver = some pref →
      pref.enabled = false → send env st payload = (.accepted, [])) ∧
    (∀ pref, st.get_email_preferences_for_npub payload.receiver = some pref →
      PreferencesFlags.contains pref.flags nt = false →
      send env st payload = (.accepted, [])) ∧
    SendResp.status .accepted = 200 ∧ SendResp.message .accepted = "OK" := by
  refine ⟨?_, ?_, ?_, rfl, rfl⟩
  · intro h
    simp [send, h1, h2, h3, hk, hid, hv, h]
  · intro pref hp he
    simp [send, h1, h2, h3, hk, hid, hv, hp, he]
  · intro pref hp hf
    simp [send, h1, h2, h3, hk, hid, hv, hp, hf]

/-- A send environment whose gates all pass and whose verifier accepts. -/
def envSend : SendEnv := ⟨true, true, true, some true, true, true⟩

/-- A registered but not yet confirmed receiver: preferences exist with
`enabled = false`. -/
def stC8 : NotifState :=
  { challenges := []
    verifications := []
    preferences := [⟨"npub1r", false, "BBBB", "a@b.co", false, "https://x/", 315391⟩] }

/-- A well-formed send payload of kind `BillSigned` for receiver `npub1r`. -/
def payloadC8 : SendPayload := ⟨"BillSigned", "bitcr123", "npub1r", "npub1s"⟩

/-- Witness for C8: sending to the disabled receiver answers `OK` with no
email dispatched. -/
theorem claim_C8_witness :
    send envSend stC8 payloadC8 = (.accepted, []) :=
  (claim_C8_send_silent_drop envSend stC8 payloadC8 PreferencesFlags.BillSigned
    rfl rfl rfl rfl (by decide) rfl).2.1
    ⟨"npub1r", false, "BBBB", "a@b.co", false, "https://x/",
      PreferencesFlags.from_bits_truncate 315391⟩ rfl rfl

lemma find?_map_replace (rows : List PrefRow) (r : PrefRow)
    (h : rows.any (fun p => p.npub == r.npub) = true) :
    (rows.map (fun p => if p.npub == r.npub then r else p)).find?
      (fun p => p.npub == r.npub) = some r := by
  induction rows with
  | nil => simp at h
  | cons p ps ih =>
    simp only [List.map_cons]
    by_cases hp : (p.npub == r.npub) = true
    · rw [if_pos hp]
      have hstep : List.find? (fun q => q.npub == r.npub)
          (r :: ps.map (fun q => if q.npub == r.npub then r else q)) = some r :=
        List.find?_cons_of_pos _ (by simp)
      exact hstep
    · rw [if_neg hp]
      have hstep : List.find? (fun q => q.npub == r.npub)
          (p :: ps.map (fun q => if q.npub == r.npub then r else q)) =
          List.find? (fun q => q.npub == r.npub)
            (ps.map (fun q => if q.npub == r.npub then r else q)) :=
        List.find?_cons_of_neg _ hp
      rw [hstep]
      refine ih ?_
      have hp' : (p.npub == r.npub) = false := by simpa using hp
      simpa [List.any_cons, hp'] using h

lemma find?_upsertPreferences (rows : List PrefRow) (r : PrefRow) (npub : String)
    (hr : r.npub = npub) :
    (upsertPreferences rows r).find? (fun p => p.npub == npub) = some r := by
  subst hr
  unfold upsertPreferences
  split
  · rename_i hany
    exact find?_map_replace rows r hany
  · rename_i hany
    have hnone : rows.find? (fun p => p.npub == r.npub) = none := by
      apply List.find?_eq_none.mpr
      intro x hx hxe
      exact hany (List.any_eq_true.mpr ⟨x, hx, hxe⟩)
    simp [List.find?_append, hnone]

/-- C9: a successful `register` persists a preferences stub whose flags are
exactly `PreferencesFlags::default()`, and that default contains precisely
the fifteen claimed flags and none of the remaining six. -/
theorem claim_C9_register_persists_default_flags (env : RegisterEnv) (st : NotifState)
    (req : RegisterReq) (now : Int) (c : ChallengeRow)
    (h1 : env.npubValid = true) (h2 : env.emailValid = true) (h3 : env.rateAllowed = true)
    (hc : st.get_challenge_for_npub req.npub = some c)
    (hexp : ¬ now > c.created_at + CHALLENGE_EXPIRY_SECONDS)
    (hv : env.verify c.challenge req.signed_challenge = some true)
    (hb : env.emailBuildOk = true) (hs : env.emailSendOk = true) :
    (register env st req now).2.preferences.find? (fun p => p.npub == c.npub) =
      some ⟨c.npub, false, env.prefToken, req.email, false, req.ebill_url,
        PreferencesFlags.default⟩ ∧
    (∀ f ∈ [PreferencesFlags.BillSigned, PreferencesFlags.BillAccepted,
        PreferencesFlags.BillAcceptanceRequested, PreferencesFlags.BillAcceptanceTimeout,
        PreferencesFlags.BillAcceptanceRejected, PreferencesFlags.BillAcceptanceRecourse,
        PreferencesFlags.BillPaid, PreferencesFlags.BillPaymentRequested,
        PreferencesFlags.BillPaymentTimeout, PreferencesFlags.BillPaymentRejected,
        PreferencesFlags.BillPaymentRecourse, PreferencesFlags.BillRecoursePaid,
        PreferencesFlags.BillRecourseRejected, PreferencesFlags.BillRecourseTimeout,
        PreferencesFlags.BillMintingRequested],
      PreferencesFlags.contains PreferencesFlags.default f = true) ∧
    (∀ f ∈ [PreferencesFlags.BillSellOffered, PreferencesFlags.BillBuyingRejected,
        PreferencesFlags.BillEndorsed, PreferencesFlags.BillSold,
        PreferencesFlags.BillNewQuote, PreferencesFlags.BillQuoteApproved],
      PreferencesFlags.contains PreferencesFlags.default f = false) := by
  refine ⟨?_, by decide, by decide⟩
  have hreg : (register env st req now).2 =
      (st.remove_challenge_for_npub c.npub).insert_confirmation_email_sent_and_preferences_for_npub
        c.npub req.email env.confToken env.prefToken req.ebill_url
        PreferencesFlags.default now := by
    simp [register, h1, h2, h3, hc, hexp, hv, hb, hs]
  rw [hreg]
  unfold NotifState.insert_confirmation_email_sent_and_preferences_for_npub
    NotifState.remove_challenge_for_npub
  dsimp only
  exact find?_upsertPreferences _ _ c.npub rfl

/-- Witness for C9: running `register` on the concrete `stC7` state persists
the default flag set for `npub1n`. -/
theorem claim_C9_witness :
    (register envReg stC7 reqC7 1).2.preferences.find? (fun p => p.npub == "npub1n") =
      some ⟨"npub1n", false, "DDDD", "a@b.co", false, "https://x/",
        PreferencesFlags.default⟩ :=
  (claim_C9_register_persists_default_flags envReg stC7 reqC7 1 ⟨"npub1n", "abcd", 0⟩
    rfl rfl rfl rfl (by decide) rfl rfl rfl).1

/-- C10: whenever `payload.kind` names none of the 21 preference flags,
`send` answers 400 `Invalid kind` and dispatches no email, for every
verifier outcome and every preferences state — the rejection happens before
signature verification, preferences lookup and email dispatch. -/
theorem claim_C10_unknown_kind_rejected (v : Option Bool) (eb es : Bool)
    (st : NotifState) (payload : SendPayload)
    (hk : PreferencesFlags.from_name payload.kind = none) :
    send ⟨true, true, true, v, eb, es⟩ st payload = (.invalidKind, []) ∧
    SendResp.status .invalidKind = 400 ∧
    SendResp.message .invalidKind = "Invalid kind" := by
  refine ⟨?_, rfl, rfl⟩
  simp [send, hk]

/-- Witness for C10: kind `BillFaxed` is unknown, so `send` rejects it with
`Invalid kind` regardless of the signature oracle and state. -/
theorem claim_C10_witness :
    send ⟨true, true, true, some true, true, true⟩ stC8
        ⟨"BillFaxed", "bitcr123", "npub1r", "npub1s"⟩ = (.invalidKind, []) ∧
    SendResp.status .invalidKind = 400 ∧
    SendResp.message .invalidKind = "Invalid kind" :=
  claim_C10_unknown_kind_rejected (some true) true true stC8
    ⟨"BillFaxed", "bitcr123", "npub1r", "npub1s"⟩ rfl

end BcrRelay
